import Mathlib

/-!
A shallow embedding of `attendance_sheet.py` (blisswisdom-roll-call-assistant),
together with theorems settling the specification claims about it.

Grids are modelled as lists of rows of formatted cell strings, plus the
unformatted layer used by `AttendanceFormReportSheetParser.get_group_number`.
Python exceptions are modelled with `Except`: `ValueError` (raised by
`datetime.strptime` and by the `AttendanceState(...)` constructor),
`NoRelevantRowError` and `UnsupportedSheetError`.
All definitions are executable and follow the Python source line by line.
-/

/-- A calendar date, as `datetime.date`: year, month, day. -/
structure Date where
  year : Nat
  month : Nat
  day : Nat
deriving DecidableEq

/-- The exceptions the module can raise.  `valueError` stands for Python's
`ValueError` (date-format failure or unrecognized `AttendanceState` label). -/
inductive PyError where
  | noRelevantRow
  | valueError
  | unsupportedSheet
deriving DecidableEq

deriving instance DecidableEq for Except

/-- The `AttendanceState` enum of attendance_sheet.py lines 21-25. -/
inductive AttendanceState where
  | inPerson
  | online
  | leave
  | absent
deriving DecidableEq

/-- The `AttendanceRecord` dataclass of attendance_sheet.py lines 28-33. -/
structure AttendanceRecord where
  name : String
  state : AttendanceState
  group_number : String
  date : Date
deriving DecidableEq

/-- Gregorian leap year, as `datetime` uses. -/
def isLeapYear (y : Nat) : Bool :=
  decide (y % 4 = 0 ∧ (y % 100 ≠ 0 ∨ y % 400 = 0))

def daysInMonth (y m : Nat) : Nat :=
  if m = 2 then (if isLeapYear y then 29 else 28)
  else if m = 4 ∨ m = 6 ∨ m = 9 ∨ m = 11 then 30
  else 31

/-- The validation done by the `datetime.date` constructor: `MINYEAR = 1`,
`MAXYEAR = 9999`, month 1-12, day within the month. -/
def mkValidDate (y m d : Nat) : Option Date :=
  if 1 ≤ y ∧ y ≤ 9999 ∧ 1 ≤ m ∧ m ≤ 12 ∧ 1 ≤ d ∧ d ≤ daysInMonth y m then
    some ⟨y, m, d⟩
  else none

/-- Whitespace as stripped by Python's `str.strip()` (ASCII part). -/
def isPySpace (c : Char) : Bool :=
  c == ' ' || c == '\t' || c == '\n' || c == '\r' || c == '\x0b' || c == '\x0c'

def digitVal (c : Char) : Nat := c.toNat - 48

/-- Split a character list at every `'/'`, like Python's `str.split('/')`. -/
def splitSlash : List Char → List (List Char)
  | [] => [[]]
  | c :: rest =>
    if c = '/' then [] :: splitSlash rest
    else
      match splitSlash rest with
      | [] => [[c]]
      | seg :: segs => (c :: seg) :: segs

/-- CPython `_strptime` field `%Y`: exactly four digits
(`TimeRE`: `(?P<Y>\d\d\d\d)`), matching the whole segment between slashes. -/
def matchY : List Char → Option Nat
  | [a, b, c, d] =>
    if a.isDigit ∧ b.isDigit ∧ c.isDigit ∧ d.isDigit then
      some (digitVal a * 1000 + digitVal b * 100 + digitVal c * 10 + digitVal d)
    else none
  | _ => none

/-- CPython `_strptime` field `%m`: `1[0-2]|0[1-9]|[1-9]`,
matching the whole segment between slashes. -/
def matchM : List Char → Option Nat
  | [a] => if '1' ≤ a ∧ a ≤ '9' then some (digitVal a) else none
  | [a, b] =>
    if a = '1' ∧ '0' ≤ b ∧ b ≤ '2' then some (10 + digitVal b)
    else if a = '0' ∧ '1' ≤ b ∧ b ≤ '9' then some (digitVal b)
    else none
  | _ => none

/-- CPython `_strptime` field `%d`: `3[01]|[12]\d|0[1-9]|[1-9]| [1-9]`,
matching the whole segment between slashes. -/
def matchD : List Char → Option Nat
  | [a] => if '1' ≤ a ∧ a ≤ '9' then some (digitVal a) else none
  | [a, b] =>
    if a = '3' ∧ (b = '0' ∨ b = '1') then some (30 + digitVal b)
    else if (a = '1' ∨ a = '2') ∧ b.isDigit then some (digitVal a * 10 + digitVal b)
    else if a = '0' ∧ '1' ≤ b ∧ b ≤ '9' then some (digitVal b)
    else if a = ' ' ∧ '1' ≤ b ∧ b ≤ '9' then some (digitVal b)
    else none
  | _ => none

/-- `datetime.datetime.strptime(s, "%Y/%m/%d")`, keeping the date part;
`none` models `ValueError`.  The format is three fields separated by literal
slashes; a field never contains a slash, so the regex built by `_strptime`
matches exactly when the string has two slashes and each segment fully
matches its field pattern, after which the `date` constructor validates. -/
def strptimeYmd (s : String) : Option Date :=
  match splitSlash s.data with
  | [y, m, d] =>
    match matchY y, matchM m, matchD d with
    | some yv, some mv, some dv => mkValidDate yv mv dv
    | _, _, _ => none
  | _ => none

/-- `datetime.datetime.strptime(s, "%m/%d/%Y")`, keeping the date part;
`none` models `ValueError`. -/
def strptime_mdY (s : String) : Option Date :=
  match splitSlash s.data with
  | [m, d, y] =>
    match matchM m, matchD d, matchY y with
    | some mv, some dv, some yv => mkValidDate yv mv dv
    | _, _, _ => none
  | _ => none

/-- Python `str.strip()` on a character list. -/
def pyStripL (l : List Char) : List Char :=
  ((l.dropWhile isPySpace).reverse.dropWhile isPySpace).reverse

/-- Python `str.strip()`. -/
def pyStrip (s : String) : String := String.mk (pyStripL s.data)

/-- Python `str.lower()` (ASCII case folding; the header strings involved are
ASCII or CJK, and CJK characters have no case). -/
def pyLower (s : String) : String := String.mk (s.data.map Char.toLower)

/-- Python `str.startswith`. -/
def pyStartsWith (s pre : String) : Bool := List.isPrefixOf pre.data s.data

/-- Python `str.endswith`. -/
def pyEndsWith (s suf : String) : Bool := List.isSuffixOf suf.data s.data

/-- Python's `c in text` membership test on characters. -/
def containsChar : List Char → Char → Bool
  | [], _ => false
  | a :: rest, c => if a = c then true else containsChar rest c

/-- Python `text[text.index(c) + 1:]` guarded by `if c in text`. -/
def dropThroughFirst (c : Char) (l : List Char) : List Char :=
  if containsChar l c then (l.dropWhile (fun a => a != c)).drop 1 else l

/-- Python `text[:text.index(c)]` guarded by `if c in text`. -/
def takeBeforeFirst (c : Char) (l : List Char) : List Char :=
  if containsChar l c then l.takeWhile (fun a => a != c) else l

namespace AttendanceSheetHelper

/-- `AttendanceSheetHelper.convert_to_name` (lines 37-46) on characters:
cut everything up to and including the first `'['` when present, then cut
from the first `']'`, then from the first `'('`, then from the first `'（'`,
then strip whitespace. -/
def convertToNameL (l : List Char) : List Char :=
  pyStripL (takeBeforeFirst '（' (takeBeforeFirst '(' (takeBeforeFirst ']'
    (dropThroughFirst '[' l))))

/-- `AttendanceSheetHelper.convert_to_name` (lines 37-46). -/
def convert_to_name (text : String) : String := String.mk (convertToNameL text.data)

/-- `AttendanceSheetHelper.convert_to_group_number` (lines 48-51):
keep the digit characters. -/
def convert_to_group_number (text : String) : String :=
  String.mk (text.data.filter Char.isDigit)

/-- One attempt of the regex `第\s*([1-9])\s*組.*` at a fixed start position:
`'第'`, then whitespace, then a digit 1-9, then whitespace, then `'組'`.
The whitespace runs are forced (a digit or `'組'` is not whitespace), so the
regex engine's match at one position is this deterministic scan. -/
def matchGroupAt : List Char → Option Char
  | '第' :: rest =>
    match rest.dropWhile isPySpace with
    | c :: rest2 =>
      if '1' ≤ c ∧ c ≤ '9' then
        match rest2.dropWhile isPySpace with
        | '組' :: _ => some c
        | _ => none
      else none
    | [] => none
  | _ => none

/-- `re.search`: try the pattern at each start position, leftmost first. -/
def searchGroup : List Char → Option Char
  | [] => none
  | a :: rest =>
    match matchGroupAt (a :: rest) with
    | some c => some c
    | none => searchGroup rest

/-- `AttendanceSheetHelper.parse_group_number` (lines 53-57). -/
def parse_group_number (text : String) : String :=
  match searchGroup text.data with
  | some c => String.mk [c]
  | none => ""

/-- `AttendanceSheetHelper.convert_to_date` (lines 59-64): try
`%Y/%m/%d` on the stripped text, on `ValueError` try `%m/%d/%Y`,
on a second `ValueError` let it propagate. -/
def convert_to_date (text : String) : Except PyError Date :=
  match strptimeYmd (pyStrip text) with
  | some d => .ok d
  | none =>
    match strptime_mdY (pyStrip text) with
    | some d => .ok d
    | none => .error .valueError

/-- The status-cell resolution used by both parsers (lines 110 and 148):
`AttendanceState(s.value) if s.value else AttendanceState.ABSENT`.
An empty cell is falsy and yields ABSENT; otherwise the enum constructor
raises `ValueError` unless the text is one of the four canonical labels. -/
def resolveState (v : String) : Except PyError AttendanceState :=
  if v = "" then .ok .absent
  else if v = "現場" then .ok .inPerson
  else if v = "線上" then .ok .online
  else if v = "請假" then .ok .leave
  else if v = "未出席" then .ok .absent
  else .error .valueError

end AttendanceSheetHelper

/-- A read-only worksheet: formatted cell values (`cell.value`) and the
unformatted layer (`cell.value_unformatted`), both addressed 1-based. -/
structure Worksheet where
  rows : List (List String)
  unformattedRows : List (List String)
deriving DecidableEq

/-- `include_tailing_empty=False`: the provider cuts trailing empty cells. -/
def dropTrailingEmpty (l : List String) : List String :=
  ((l.reverse).dropWhile (fun s => s == "")).reverse

/-- `wks.get_row(i, returnas='cell', include_tailing_empty=False)`;
a returned cell's `col` attribute is its 1-based position, since only
trailing cells were cut. -/
def Worksheet.getRowCells (w : Worksheet) (i : Nat) : List String :=
  dropTrailingEmpty (w.rows.getD (i - 1) [])

/-- `wks.get_col(c, include_tailing_empty=False)`; with
`DateTimeRenderOption.FORMATTED_STRING` the values are the formatted
strings, i.e. the same `value` layer. -/
def Worksheet.getColCells (w : Worksheet) (c : Nat) : List String :=
  dropTrailingEmpty (w.rows.map (fun r => r.getD (c - 1) ""))

/-- `wks.cell((r, c)).value`. -/
def Worksheet.cellValue (w : Worksheet) (r c : Nat) : String :=
  (w.rows.getD (r - 1) []).getD (c - 1) ""

/-- `wks.cell((r, c)).value_unformatted`. -/
def Worksheet.cellValueUnformatted (w : Worksheet) (r c : Nat) : String :=
  (w.unformattedRows.getD (r - 1) []).getD (c - 1) ""

namespace AttendanceSheetParser

/-- CPython semantics of line 90's comparison
`datetime.datetime.strptime(c.value, '%m/%d/%Y') == date`: the left operand
is a `datetime.datetime`, the right operand is the plain `datetime.date`
argument of `get_attendance_records_by_date`, and `datetime.__eq__` returns
`False` whenever the other operand is a `date` that is not a `datetime`
(Lib/datetime.py; the documentation states a `date` and a `datetime` never
compare equal).  So the comparison is unconditionally false. -/
def pyDatetimeEqDate (_parsed : Date) (_target : Date) : Bool := false

/-- The header scan of lines 88-96: walk the trimmed header row left to
right; a cell failing to parse as `%m/%d/%Y` raises `ValueError`, caught
and skipped; a parsed cell is compared (as a `datetime`) with the target
`date`, and on equality its 1-based column is taken. -/
def findStatusColAux (d : Date) : List String → Nat → Option Nat
  | [], _ => none
  | v :: rest, col =>
    match strptime_mdY v with
    | some dt => if pyDatetimeEqDate dt d then some col else findStatusColAux d rest (col + 1)
    | none => findStatusColAux d rest (col + 1)

/-- `AttendanceSheetParser.get_group_number` (lines 81-82): always `''`. -/
def get_group_number (_w : Worksheet) (_rowIndex : Nat) : String := ""

/-- The member scan of lines 100-111 over the zipped (name, status) cell
pairs, threading the running group number: an empty name cell is skipped;
a name cell matching the group pattern updates the running group number and
emits nothing; otherwise a record is built (`ValueError` from an
unrecognized non-empty status label propagates, discarding everything). -/
def rosterLoop (d : Date) : List (String × String) → String → Except PyError (List AttendanceRecord)
  | [], _ => .ok []
  | (n, s) :: rest, group =>
    if n = "" then rosterLoop d rest group
    else if AttendanceSheetHelper.parse_group_number n ≠ "" then
      rosterLoop d rest (AttendanceSheetHelper.parse_group_number n)
    else
      match AttendanceSheetHelper.resolveState s with
      | .error e => .error e
      | .ok st =>
        match rosterLoop d rest group with
        | .error e => .error e
        | .ok recs =>
          .ok (⟨AttendanceSheetHelper.convert_to_name n, st, group, d⟩ :: recs)

/-- `AttendanceSheetParser.get_attendance_records_by_date` (lines 84-113):
find the status column from the header row (the for/else raises
`NoRelevantRowError` when the scan finds none), then scan the zipped name
column and status column, skipping row 1 of each. -/
def get_attendance_records_by_date (w : Worksheet) (d : Date) :
    Except PyError (List AttendanceRecord) :=
  match findStatusColAux d (w.getRowCells 1) 1 with
  | none => .error .noRelevantRow
  | some statusCol =>
    rosterLoop d (((w.getColCells 1).drop 1).zip ((w.getColCells statusCol).drop 1)) ""

/-- Modelled from the spec: the header scan as §4.2 step 1 words it — "the
first cell whose parsed date equals the target date fixes the status column
index" — i.e. the parsed calendar date is compared with the target date
directly, instead of Python's always-false datetime-vs-date comparison. -/
def findStatusColIntendedAux (d : Date) : List String → Nat → Option Nat
  | [], _ => none
  | v :: rest, col =>
    match strptime_mdY v with
    | some dt => if dt = d then some col else findStatusColIntendedAux d rest (col + 1)
    | none => findStatusColIntendedAux d rest (col + 1)

/-- Modelled from the spec: `get_attendance_records_by_date` with the
spec-worded header comparison; everything else is the code's own scan. -/
def get_attendance_records_by_date_intended (w : Worksheet) (d : Date) :
    Except PyError (List AttendanceRecord) :=
  match findStatusColIntendedAux d (w.getRowCells 1) 1 with
  | none => .error .noRelevantRow
  | some statusCol =>
    rosterLoop d (((w.getColCells 1).drop 1).zip ((w.getColCells statusCol).drop 1)) ""

end AttendanceSheetParser

namespace AttendanceFormReportSheetParser

/-- Column 2 of the sheet, trailing-empty cells cut, row 1 dropped
(the `[1:]` slice of line 121). -/
def dateCells (w : Worksheet) : List String := (w.getColCells 2).drop 1

/-- The scan of lines 118-124: `i` is the running `enumerate` index and
`last` the running `last_relevant_row_index` (0 while none matched).
`convert_to_date` is called with no try/except, so a cell parsing under
neither format raises `ValueError` out of the whole scan. -/
def classDateLoop (d : Date) : List String → Nat → Nat → Except PyError Nat
  | [], _, last => if last = 0 then .error .noRelevantRow else .ok last
  | v :: rest, i, last =>
    match AttendanceSheetHelper.convert_to_date v with
    | .error e => .error e
    | .ok dv =>
      if dv = d then classDateLoop d rest (i + 1) (i + 2)
      else classDateLoop d rest (i + 1) last

/-- `AttendanceFormReportSheetParser.get_class_date_index` (lines 117-127). -/
def get_class_date_index (w : Worksheet) (d : Date) : Except PyError Nat :=
  classDateLoop d (dateCells w) 0 0

/-- `AttendanceFormReportSheetParser.get_group_number` (lines 129-130). -/
def get_group_number (w : Worksheet) (rowIndex : Nat) : String :=
  AttendanceSheetHelper.convert_to_group_number (w.cellValueUnformatted rowIndex 3)

/-- The pairing loop of lines 143-149 over zipped (title, data) cells:
only titles starting with `出席記錄 [` produce a record; an unrecognized
non-empty status raises `ValueError`, discarding everything. -/
def formLoop (d : Date) (g : String) : List (String × String) → Except PyError (List AttendanceRecord)
  | [] => .ok []
  | (t, v) :: rest =>
    if pyStartsWith t "出席記錄 [" then
      match AttendanceSheetHelper.resolveState v with
      | .error e => .error e
      | .ok st =>
        match formLoop d g rest with
        | .error e => .error e
        | .ok recs =>
          .ok (⟨AttendanceSheetHelper.convert_to_name t, st, g, d⟩ :: recs)
    else formLoop d g rest

/-- Lines 136-149 given the winning row index: group number from that row's
column 3, then zip the trimmed title row with the trimmed winning data row. -/
def buildFormRecords (w : Worksheet) (d : Date) (rowIndex : Nat) :
    Except PyError (List AttendanceRecord) :=
  formLoop d (get_group_number w rowIndex) ((w.getRowCells 1).zip (w.getRowCells rowIndex))

/-- `AttendanceFormReportSheetParser.get_attendance_records_by_date`
(lines 132-151). -/
def get_attendance_records_by_date (w : Worksheet) (d : Date) :
    Except PyError (List AttendanceRecord) :=
  match get_class_date_index w d with
  | .error e => .error e
  | .ok i => buildFormRecords w d i

end AttendanceFormReportSheetParser

/-- Which concrete parser `AttendanceSheetParserBuilder.build` returns. -/
inductive ParserKind where
  | rosterMatrix
  | formLog
deriving DecidableEq

namespace AttendanceSheetParserBuilder

/-- `AttendanceSheetParserBuilder.build` (lines 180-188): read cell (1,1);
if its lower-cased text ends with " am" or " pm", or the text starts with
"上午 " or "下午 ", return the roster-matrix parser; else if the text is
exactly "Timestamp" or "時間戳記", return the form-log parser; else raise
`UnsupportedSheetError`. -/
def build (w : Worksheet) : Except PyError ParserKind :=
  if ([" am", " pm"].any fun v => pyEndsWith (pyLower (w.cellValue 1 1)) v) ||
     (["上午 ", "下午 "].any fun v => pyStartsWith (w.cellValue 1 1) v) then
    .ok .rosterMatrix
  else if w.cellValue 1 1 = "Timestamp" ∨ w.cellValue 1 1 = "時間戳記" then
    .ok .formLog
  else
    .error .unsupportedSheet

/-- The observable steps of `AttendanceSheetParserBuilder.__init__`
(lines 155-178). -/
inductive BootstrapStep where
  | mkstemp
  | writeKey
  | closeFd
  | authorizeOpen
  | removeFile
deriving DecidableEq

/-- The straight-line event trace of `__init__`: `tempfile.mkstemp`,
`os.write`, `os.close` always run; then `pygsheets.authorize(...)
.open_by_url(...).sheet1` either succeeds (`externalOk = true`), after
which `os.remove` on line 178 runs, or raises — and with no try/finally in
the source the exception propagates and `os.remove` never runs. -/
def bootstrapTrace (externalOk : Bool) : List BootstrapStep :=
  [.mkstemp, .writeKey, .closeFd, .authorizeOpen] ++
    (if externalOk then [.removeFile] else [])

/-- The temporary service-account file outlives the call exactly when it was
created and never removed. -/
def tempFileOutlives (t : List BootstrapStep) : Bool :=
  t.contains .mkstemp && !(t.contains .removeFile)

end AttendanceSheetParserBuilder

/-- Whether an `Except` computation succeeded. -/
def isOkE {ε α : Type} : Except ε α → Bool
  | .ok _ => true
  | .error _ => false

/-- The roster-matrix grid of spec §8: header row `["", "3/15/2024",
"3/22/2024"]`, name column `["", "第1組", "王小明", "第2組", "李小華"]`,
status cells under "3/15/2024" of rows 2-5 `["", "現場", "", "線上"]`. -/
def gridC1 : Worksheet :=
  { rows := [["", "3/15/2024", "3/22/2024"],
             ["第1組", "", ""],
             ["王小明", "現場", ""],
             ["第2組", "", ""],
             ["李小華", "線上", ""]],
    unformattedRows := [["", "3/15/2024", "3/22/2024"],
             ["第1組", "", ""],
             ["王小明", "現場", ""],
             ["第2組", "", ""],
             ["李小華", "線上", ""]] }

/-- A form-log grid with two submission rows dated 2024/03/15, at sheet
rows 2 and 5 (spec §8's last-match example). -/
def grid55 : Worksheet :=
  { rows := [["Timestamp", "日期", "組別", "出席記錄 [王小明]"],
             ["a", "2024/03/15", "1", "現場"],
             ["b", "2024/03/22", "2", "線上"],
             ["c", "2024/03/08", "3", "線上"],
             ["d", "2024/03/15", "5", "請假"]],
    unformattedRows := [["Timestamp", "日期", "組別", "出席記錄 [王小明]"],
             ["a", "2024/03/15", "1", "現場"],
             ["b", "2024/03/22", "2", "線上"],
             ["c", "2024/03/08", "3", "線上"],
             ["d", "2024/03/15", "5", "請假"]] }

/-- A form-log grid whose single scanned column-2 cell parses under neither
date format. -/
def gBadDate : Worksheet :=
  { rows := [["Timestamp", "日期"], ["a", "garbage"]],
    unformattedRows := [["Timestamp", "日期"], ["a", "garbage"]] }

/-- A form-log grid carrying the same member's attendance column twice. -/
def gDup : Worksheet :=
  { rows := [["Timestamp", "日期", "組別", "出席記錄 [王小明]", "出席記錄 [王小明]"],
             ["a", "2024/03/15", "3", "現場", "線上"]],
    unformattedRows := [["Timestamp", "日期", "組別", "出席記錄 [王小明]", "出席記錄 [王小明]"],
             ["a", "2024/03/15", "3", "現場", "線上"]] }

/-- A form-log grid whose second member's status cell is empty and trailing,
so the trimmed data row is shorter than the title row. -/
def gShort : Worksheet :=
  { rows := [["Timestamp", "日期", "組別", "出席記錄 [王小明]", "出席記錄 [李小華]"],
             ["a", "2024/03/15", "1", "現場", ""]],
    unformattedRows := [["Timestamp", "日期", "組別", "出席記錄 [王小明]", "出席記錄 [李小華]"],
             ["a", "2024/03/15", "1", "現場", ""]] }

/-- One-cell grids exercising the layout detector. -/
def gAM : Worksheet := { rows := [["9:00 AM"]], unformattedRows := [["9:00 AM"]] }

def gTs : Worksheet := { rows := [["Timestamp"]], unformattedRows := [["Timestamp"]] }

def gName : Worksheet := { rows := [["Name"]], unformattedRows := [["Name"]] }

def gPM : Worksheet := { rows := [["下午 3:00"]], unformattedRows := [["下午 3:00"]] }

/-- C1: on the spec §8 roster-matrix grid with target date 2024-03-15, the
code raises `NoRelevantRowError` instead of returning the two records: line
90 compares the `datetime` returned by `strptime` against the `date`
argument, and in Python that comparison is always false, so no header column
is ever selected.  With the comparison the spec words (parsed date equals
target date) the very same scan returns exactly the two expected records. -/
theorem c1_roster_matrix_example :
    AttendanceSheetParser.get_attendance_records_by_date gridC1 ⟨2024, 3, 15⟩ =
      .error .noRelevantRow ∧
    AttendanceSheetParser.get_attendance_records_by_date_intended gridC1 ⟨2024, 3, 15⟩ =
      .ok [⟨"王小明", .inPerson, "1", ⟨2024, 3, 15⟩⟩,
           ⟨"李小華", .online, "2", ⟨2024, 3, 15⟩⟩] :=
  ⟨rfl, rfl⟩

/-- C2 counterexample: `convert_to_name` is not idempotent.  On `"a[b[c"`
one application cuts only through the first `'['` and yields `"b[c"`, and a
second application cuts again and yields `"c"`. -/
theorem c2_not_idempotent_cex :
    AttendanceSheetHelper.convert_to_name (AttendanceSheetHelper.convert_to_name "a[b[c") ≠
      AttendanceSheetHelper.convert_to_name "a[b[c" := by decide

/-- C3 counterexample: when the external authorize/open call fails, the
temporary service-account file outlives `__init__` — the source has no
try/finally, so `os.remove` (line 178) is skipped on the failure path. -/
theorem c3_secret_leak_cex :
    AttendanceSheetParserBuilder.tempFileOutlives
      (AttendanceSheetParserBuilder.bootstrapTrace false) = true := rfl

/-- C3 amended: the temporary secret file is deleted on the success path
only; on the failure path of the external authorize/open call the
exception propagates before `os.remove` and the file outlives the call. -/
theorem c3_cleanup_amended :
    AttendanceSheetParserBuilder.tempFileOutlives
      (AttendanceSheetParserBuilder.bootstrapTrace true) = false ∧
    AttendanceSheetParserBuilder.tempFileOutlives
      (AttendanceSheetParserBuilder.bootstrapTrace false) = true :=
  ⟨rfl, rfl⟩

/-- C4: the detector inspects only cell (1,1); "9:00 AM" selects the
roster-matrix parser, "Timestamp" the form-log parser, "Name" raises
`UnsupportedSheetError`; in general the roster-matrix conditions (lowered
text ending in " am"/" pm", or text starting with "上午 "/"下午 ") are
checked first, and only when they all fail is the text compared with
"Timestamp"/"時間戳記", any other value raising the unsupported error. -/
theorem c4_build_detection :
    AttendanceSheetParserBuilder.build gAM = .ok .rosterMatrix ∧
    AttendanceSheetParserBuilder.build gTs = .ok .formLog ∧
    AttendanceSheetParserBuilder.build gName = .error .unsupportedSheet ∧
    (∀ w : Worksheet,
      pyEndsWith (pyLower (w.cellValue 1 1)) " am" = true ∨
      pyEndsWith (pyLower (w.cellValue 1 1)) " pm" = true ∨
      pyStartsWith (w.cellValue 1 1) "上午 " = true ∨
      pyStartsWith (w.cellValue 1 1) "下午 " = true →
      AttendanceSheetParserBuilder.build w = .ok .rosterMatrix) ∧
    (∀ w : Worksheet,
      pyEndsWith (pyLower (w.cellValue 1 1)) " am" = false →
      pyEndsWith (pyLower (w.cellValue 1 1)) " pm" = false →
      pyStartsWith (w.cellValue 1 1) "上午 " = false →
      pyStartsWith (w.cellValue 1 1) "下午 " = false →
      AttendanceSheetParserBuilder.build w =
        (if w.cellValue 1 1 = "Timestamp" ∨ w.cellValue 1 1 = "時間戳記" then
          .ok .formLog else .error .unsupportedSheet)) := by
  refine ⟨rfl, rfl, rfl, ?_, ?_⟩
  · intro w h
    have hc : (([" am", " pm"].any fun v => pyEndsWith (pyLower (w.cellValue 1 1)) v) ||
        (["上午 ", "下午 "].any fun v => pyStartsWith (w.cellValue 1 1) v)) = true := by
      rcases h with h | h | h | h <;> simp [List.any_cons, List.any_nil, h]
    unfold AttendanceSheetParserBuilder.build
    rw [hc]
    rfl
  · intro w h1 h2 h3 h4
    have hc : (([" am", " pm"].any fun v => pyEndsWith (pyLower (w.cellValue 1 1)) v) ||
        (["上午 ", "下午 "].any fun v => pyStartsWith (w.cellValue 1 1) v)) = false := by
      simp [List.any_cons, List.any_nil, h1, h2, h3, h4]
    unfold AttendanceSheetParserBuilder.build
    rw [hc]
    rfl

theorem c4_build_witness :
    AttendanceSheetParserBuilder.build gPM = .ok .rosterMatrix :=
  c4_build_detection.2.2.2.1 gPM (Or.inr (Or.inr (Or.inr (by decide))))

/-- C6: in the status-cell resolution shared by both parsers' record
construction (lines 110 and 148), an empty cell yields ABSENT without
failure, each canonical label maps to its state, and any other non-empty
text raises `ValueError`; the last four conjuncts exercise the same
behaviour through both parsers' scan loops. -/
theorem c6_status_resolution :
    AttendanceSheetHelper.resolveState "" = .ok .absent ∧
    AttendanceSheetHelper.resolveState "現場" = .ok .inPerson ∧
    AttendanceSheetHelper.resolveState "線上" = .ok .online ∧
    AttendanceSheetHelper.resolveState "請假" = .ok .leave ∧
    AttendanceSheetHelper.resolveState "未出席" = .ok .absent ∧
    (∀ v, v ≠ "" → v ≠ "現場" → v ≠ "線上" → v ≠ "請假" → v ≠ "未出席" →
      AttendanceSheetHelper.resolveState v = .error .valueError) ∧
    AttendanceSheetParser.rosterLoop ⟨2024, 3, 15⟩ [("王小明", "")] "" =
      .ok [⟨"王小明", .absent, "", ⟨2024, 3, 15⟩⟩] ∧
    AttendanceSheetParser.rosterLoop ⟨2024, 3, 15⟩ [("王小明", "出席")] "" =
      .error .valueError ∧
    AttendanceFormReportSheetParser.formLoop ⟨2024, 3, 15⟩ "1" [("出席記錄 [王小明]", "")] =
      .ok [⟨"王小明", .absent, "1", ⟨2024, 3, 15⟩⟩] ∧
    AttendanceFormReportSheetParser.formLoop ⟨2024, 3, 15⟩ "1" [("出席記錄 [王小明]", "出席")] =
      .error .valueError := by
  refine ⟨rfl, rfl, rfl, rfl, rfl, ?_, by decide, by decide, by decide, by decide⟩
  intro v h1 h2 h3 h4 h5
  simp [AttendanceSheetHelper.resolveState, h1, h2, h3, h4, h5]

theorem c6_status_witness :
    AttendanceSheetHelper.resolveState "出席" = .error .valueError :=
  c6_status_resolution.2.2.2.2.2.1 "出席" (by decide) (by decide) (by decide)
    (by decide) (by decide)

/-- C7: `convert_to_date` tries `%Y/%m/%d` on the stripped input first and
`%m/%d/%Y` only when that fails, raising `ValueError` when both fail;
"2024/03/15" and "03/15/2024" both give 2024-03-15, "15/03/2024" fails, and
surrounding whitespace is stripped. -/
theorem c7_convert_to_date :
    AttendanceSheetHelper.convert_to_date "2024/03/15" = .ok ⟨2024, 3, 15⟩ ∧
    AttendanceSheetHelper.convert_to_date "03/15/2024" = .ok ⟨2024, 3, 15⟩ ∧
    AttendanceSheetHelper.convert_to_date "15/03/2024" = .error .valueError ∧
    AttendanceSheetHelper.convert_to_date " 2024/03/15\t" = .ok ⟨2024, 3, 15⟩ ∧
    (∀ s d, strptimeYmd (pyStrip s) = some d →
      AttendanceSheetHelper.convert_to_date s = .ok d) ∧
    (∀ s d, strptimeYmd (pyStrip s) = none → strptime_mdY (pyStrip s) = some d →
      AttendanceSheetHelper.convert_to_date s = .ok d) ∧
    (∀ s, strptimeYmd (pyStrip s) = none → strptime_mdY (pyStrip s) = none →
      AttendanceSheetHelper.convert_to_date s = .error .valueError) := by
  refine ⟨rfl, rfl, rfl, rfl, ?_, ?_, ?_⟩
  · intro s d h
    simp [AttendanceSheetHelper.convert_to_date, h]
  · intro s d h1 h2
    simp [AttendanceSheetHelper.convert_to_date, h1, h2]
  · intro s h1 h2
    simp [AttendanceSheetHelper.convert_to_date, h1, h2]

theorem c7_convert_witness :
    AttendanceSheetHelper.convert_to_date "2024/3/5" = .ok ⟨2024, 3, 5⟩ :=
  c7_convert_to_date.2.2.2.2.1 "2024/3/5" ⟨2024, 3, 5⟩ rfl

theorem containsChar_iff_mem : ∀ (l : List Char) (c : Char), containsChar l c = true ↔ c ∈ l
  | [], c => by simp [containsChar]
  | a :: rest, c => by
    by_cases hac : a = c
    · simp [containsChar, hac]
    · simp [containsChar, hac, List.mem_cons, containsChar_iff_mem rest c, Ne.symm hac]

theorem containsChar_eq_false_of_not_mem {l : List Char} {c : Char} (h : c ∉ l) :
    containsChar l c = false := by
  cases hb : containsChar l c with
  | false => rfl
  | true => exact absurd ((containsChar_iff_mem l c).mp hb) h

theorem dropThroughFirst_eq_of_not_mem {c : Char} {l : List Char} (h : c ∉ l) :
    dropThroughFirst c l = l := by
  unfold dropThroughFirst
  rw [containsChar_eq_false_of_not_mem h]
  rfl

theorem takeBeforeFirst_eq_of_not_mem {c : Char} {l : List Char} (h : c ∉ l) :
    takeBeforeFirst c l = l := by
  unfold takeBeforeFirst
  rw [containsChar_eq_false_of_not_mem h]
  rfl

theorem not_mem_takeBeforeFirst (c : Char) (l : List Char) : c ∉ takeBeforeFirst c l := by
  unfold takeBeforeFirst
  by_cases h : containsChar l c = true
  · rw [if_pos h]
    intro hm
    have h2 := List.mem_takeWhile_imp hm
    rw [bne_self_eq_false] at h2
    exact Bool.false_ne_true h2
  · rw [if_neg h]
    intro hm
    exact h ((containsChar_iff_mem l c).mpr hm)

theorem takeBeforeFirst_subset (c : Char) (l : List Char) : takeBeforeFirst c l ⊆ l := by
  unfold takeBeforeFirst
  by_cases h : containsChar l c = true
  · rw [if_pos h]
    exact (List.takeWhile_sublist _).subset
  · rw [if_neg h]
    exact fun x hx => hx

theorem pyStripL_subset (l : List Char) : pyStripL l ⊆ l := by
  intro x hx
  unfold pyStripL at hx
  rw [List.mem_reverse] at hx
  have hx2 := (List.dropWhile_sublist isPySpace).subset hx
  rw [List.mem_reverse] at hx2
  exact (List.dropWhile_sublist isPySpace).subset hx2

theorem dropWhile_head_false {α : Type} (p : α → Bool) :
    ∀ (l : List α) (a : α) (m : List α), List.dropWhile p l = a :: m → p a = false
  | [], a, m, h => by simp [List.dropWhile] at h
  | b :: rest, a, m, h => by
    rw [List.dropWhile_cons] at h
    by_cases hpb : p b = true
    · rw [if_pos hpb] at h
      exact dropWhile_head_false p rest a m h
    · rw [if_neg hpb] at h
      injection h with h1 h2
      rw [← h1]
      exact Bool.eq_false_iff.mpr hpb

theorem dropWhile_dropWhile {α : Type} (p : α → Bool) (l : List α) :
    List.dropWhile p (List.dropWhile p l) = List.dropWhile p l := by
  cases hm : List.dropWhile p l with
  | nil => rfl
  | cons a m =>
    rw [List.dropWhile_cons, dropWhile_head_false p l a m hm]
    simp

theorem dropWhile_append_last {α : Type} (p : α → Bool) (a : α) (ha : p a = false) :
    ∀ (l : List α), List.dropWhile p (l ++ [a]) = List.dropWhile p l ++ [a]
  | [] => by simp [List.dropWhile_cons, ha]
  | b :: rest => by
    rw [List.cons_append, List.dropWhile_cons, List.dropWhile_cons]
    by_cases hpb : p b = true
    · rw [if_pos hpb, if_pos hpb]
      exact dropWhile_append_last p a ha rest
    · rw [if_neg hpb, if_neg hpb, List.cons_append]

theorem pyStripL_cons_clean (a : Char) (u : List Char) (ha : isPySpace a = false)
    (hu : List.dropWhile isPySpace u = u) :
    pyStripL (a :: u.reverse) = a :: u.reverse := by
  unfold pyStripL
  have h1 : List.dropWhile isPySpace (a :: u.reverse) = a :: u.reverse := by
    rw [List.dropWhile_cons, ha]
    simp
  rw [h1, List.reverse_cons, List.reverse_reverse,
    dropWhile_append_last isPySpace a ha, hu, List.reverse_append]
  simp

theorem pyStripL_idem (l : List Char) : pyStripL (pyStripL l) = pyStripL l := by
  cases hm : List.dropWhile isPySpace l with
  | nil =>
    have h0 : pyStripL l = [] := by
      unfold pyStripL
      rw [hm]
      rfl
    rw [h0]
    rfl
  | cons a m =>
    have ha := dropWhile_head_false isPySpace l a m hm
    have hr : pyStripL l = a :: (List.dropWhile isPySpace m.reverse).reverse := by
      unfold pyStripL
      rw [hm, List.reverse_cons, dropWhile_append_last isPySpace a ha, List.reverse_append]
      rfl
    rw [hr]
    exact pyStripL_cons_clean a (List.dropWhile isPySpace m.reverse) ha
      (dropWhile_dropWhile isPySpace m.reverse)

theorem convertToNameL_idem_of_no_bracket (l : List Char)
    (h : '[' ∉ AttendanceSheetHelper.convertToNameL l) :
    AttendanceSheetHelper.convertToNameL (AttendanceSheetHelper.convertToNameL l) =
      AttendanceSheetHelper.convertToNameL l := by
  set t1 := dropThroughFirst '[' l with ht1
  set t2 := takeBeforeFirst ']' t1 with ht2
  set t3 := takeBeforeFirst '(' t2 with ht3
  set t4 := takeBeforeFirst '（' t3 with ht4
  have hr : AttendanceSheetHelper.convertToNameL l = pyStripL t4 := rfl
  have h2 : ']' ∉ t2 := not_mem_takeBeforeFirst ']' t1
  have h4 : ']' ∉ t4 := fun hm =>
    h2 (takeBeforeFirst_subset '(' t2 (takeBeforeFirst_subset '（' t3 hm))
  have h4p : '(' ∉ t4 := fun hm =>
    not_mem_takeBeforeFirst '(' t2 (takeBeforeFirst_subset '（' t3 hm)
  have h4f : '（' ∉ t4 := not_mem_takeBeforeFirst '（' t3
  have hrB : ']' ∉ pyStripL t4 := fun hm => h4 (pyStripL_subset t4 hm)
  have hrP : '(' ∉ pyStripL t4 := fun hm => h4p (pyStripL_subset t4 hm)
  have hrF : '（' ∉ pyStripL t4 := fun hm => h4f (pyStripL_subset t4 hm)
  have hrO : '[' ∉ pyStripL t4 := hr ▸ h
  rw [hr]
  unfold AttendanceSheetHelper.convertToNameL
  rw [dropThroughFirst_eq_of_not_mem hrO, takeBeforeFirst_eq_of_not_mem hrB,
    takeBeforeFirst_eq_of_not_mem hrP, takeBeforeFirst_eq_of_not_mem hrF,
    pyStripL_idem]

/-- C2 amended: `convert_to_name` is idempotent on every input whose first
application leaves no `'['` in the result (in particular on all
already-clean names); when a `'['` survives — only possible when the input
holds several `'['` — a second application cuts further
(`c2_not_idempotent_cex`). -/
theorem c2_idempotent_amended (s : String)
    (h : '[' ∉ (AttendanceSheetHelper.convert_to_name s).data) :
    AttendanceSheetHelper.convert_to_name (AttendanceSheetHelper.convert_to_name s) =
      AttendanceSheetHelper.convert_to_name s :=
  congrArg String.mk (convertToNameL_idem_of_no_bracket s.data h)

theorem c2_idempotent_witness :
    AttendanceSheetHelper.convert_to_name (AttendanceSheetHelper.convert_to_name "出席記錄 [王小明]") =
      AttendanceSheetHelper.convert_to_name "出席記錄 [王小明]" :=
  c2_idempotent_amended "出席記錄 [王小明]" (by decide)

theorem findStatusColAux_none (d : Date) :
    ∀ (cells : List String) (col : Nat),
      AttendanceSheetParser.findStatusColAux d cells col = none
  | [], _ => rfl
  | v :: rest, col => by
    have ih := findStatusColAux_none d rest (col + 1)
    cases hv : strptime_mdY v <;>
      simp [AttendanceSheetParser.findStatusColAux, hv,
        AttendanceSheetParser.pyDatetimeEqDate, ih]

/-- The roster-matrix parser can never return: line 90's datetime-vs-date
comparison is always false, so the header scan always falls through to the
for/else `raise NoRelevantRowError`. -/
theorem roster_get_always_error (w : Worksheet) (d : Date) :
    AttendanceSheetParser.get_attendance_records_by_date w d = .error .noRelevantRow := by
  unfold AttendanceSheetParser.get_attendance_records_by_date
  rw [findStatusColAux_none]

theorem formLoop_ok_spec (d : Date) (g : String) :
    ∀ (pairs : List (String × String)) (recs : List AttendanceRecord),
      AttendanceFormReportSheetParser.formLoop d g pairs = .ok recs →
      (∀ r ∈ recs, r.date = d ∧ r.group_number = g) ∧
      recs.map (fun r => r.name) =
        ((pairs.map Prod.fst).filter (fun t => pyStartsWith t "出席記錄 [")).map
          AttendanceSheetHelper.convert_to_name ∧
      recs.length ≤ pairs.length
  | [], recs, h => by
    have h2 : (Except.ok ([] : List AttendanceRecord) :
        Except PyError (List AttendanceRecord)) = .ok recs := h
    injection h2 with h3
    subst h3
    exact ⟨fun r hr => absurd hr (List.not_mem_nil r), rfl, Nat.le_refl 0⟩
  | (t, v) :: rest, recs, h => by
    by_cases hpre : pyStartsWith t "出席記錄 [" = true
    · cases hst : AttendanceSheetHelper.resolveState v with
      | error e =>
        rw [AttendanceFormReportSheetParser.formLoop, if_pos hpre, hst] at h
        exact Except.noConfusion h
      | ok st =>
        cases hrec : AttendanceFormReportSheetParser.formLoop d g rest with
        | error e =>
          rw [AttendanceFormReportSheetParser.formLoop, if_pos hpre, hst, hrec] at h
          exact Except.noConfusion h
        | ok recs2 =>
          rw [AttendanceFormReportSheetParser.formLoop, if_pos hpre, hst, hrec] at h
          have h2 : (Except.ok
              (⟨AttendanceSheetHelper.convert_to_name t, st, g, d⟩ :: recs2) :
              Except PyError (List AttendanceRecord)) = .ok recs := h
          injection h2 with h3
          subst h3
          obtain ⟨ihmem, ihnames, ihlen⟩ := formLoop_ok_spec d g rest recs2 hrec
          refine ⟨?_, ?_, ?_⟩
          · intro r hr
            rcases List.mem_cons.mp hr with h4 | h4
            · subst h4
              exact ⟨rfl, rfl⟩
            · exact ihmem r h4
          · simp only [List.map_cons, List.filter_cons, hpre, if_true, ihnames]
          · rw [List.length_cons, List.length_cons]
            exact Nat.succ_le_succ ihlen
    · rw [AttendanceFormReportSheetParser.formLoop, if_neg hpre] at h
      obtain ⟨ihmem, ihnames, ihlen⟩ := formLoop_ok_spec d g rest recs h
      refine ⟨ihmem, ?_, Nat.le_succ_of_le ihlen⟩
      simp [List.filter_cons, hpre, ihnames]

theorem classDateLoop_no_match (d : Date) :
    ∀ (cells : List String) (i last : Nat),
      (∀ v ∈ cells, isOkE (AttendanceSheetHelper.convert_to_date v) = true) →
      (∀ j, j < cells.length →
        AttendanceSheetHelper.convert_to_date (cells.getD j "") ≠ .ok d) →
      AttendanceFormReportSheetParser.classDateLoop d cells i last =
        if last = 0 then .error .noRelevantRow else .ok last
  | [], _, _, _, _ => rfl
  | v :: rest, i, last, hok, hne => by
    cases hv : AttendanceSheetHelper.convert_to_date v with
    | error e =>
      have hok0 := hok v (List.mem_cons_self v rest)
      rw [hv] at hok0
      exact absurd hok0 (by simp [isOkE])
    | ok dv =>
      have hd : ¬ dv = d := by
        intro hdd
        exact hne 0 (Nat.succ_pos rest.length) (by rw [List.getD_cons_zero, hv, hdd])
      rw [AttendanceFormReportSheetParser.classDateLoop, hv]
      show (if dv = d then AttendanceFormReportSheetParser.classDateLoop d rest (i + 1) (i + 2)
          else AttendanceFormReportSheetParser.classDateLoop d rest (i + 1) last) =
        if last = 0 then .error .noRelevantRow else .ok last
      rw [if_neg hd]
      exact classDateLoop_no_match d rest (i + 1) last
        (fun u hu => hok u (List.mem_cons_of_mem v hu))
        (fun j hj => by
          have := hne (j + 1) (Nat.succ_lt_succ hj)
          rwa [List.getD_cons_succ] at this)

theorem classDateLoop_last_match (d : Date) :
    ∀ (cells : List String) (i last p : Nat),
      (∀ v ∈ cells, isOkE (AttendanceSheetHelper.convert_to_date v) = true) →
      p < cells.length →
      AttendanceSheetHelper.convert_to_date (cells.getD p "") = .ok d →
      (∀ j, j < cells.length → p < j →
        AttendanceSheetHelper.convert_to_date (cells.getD j "") ≠ .ok d) →
      AttendanceFormReportSheetParser.classDateLoop d cells i last = .ok (i + p + 2)
  | [], _, _, p, _, hp, _, _ => absurd hp (Nat.not_lt_zero p)
  | v :: rest, i, last, p, hok, hp, hmatch, hlater => by
    have hok2 : ∀ u ∈ rest, isOkE (AttendanceSheetHelper.convert_to_date u) = true :=
      fun u hu => hok u (List.mem_cons_of_mem v hu)
    cases p with
    | zero =>
      have hv : AttendanceSheetHelper.convert_to_date v = .ok d := by
        simpa using hmatch
      rw [AttendanceFormReportSheetParser.classDateLoop, hv]
      show (if d = d then AttendanceFormReportSheetParser.classDateLoop d rest (i + 1) (i + 2)
          else AttendanceFormReportSheetParser.classDateLoop d rest (i + 1) last) =
        .ok (i + 0 + 2)
      rw [if_pos rfl]
      have hnm : ∀ j, j < rest.length →
          AttendanceSheetHelper.convert_to_date (rest.getD j "") ≠ .ok d := by
        intro j hj
        have := hlater (j + 1) (Nat.succ_lt_succ hj) (Nat.succ_pos j)
        rwa [List.getD_cons_succ] at this
      rw [classDateLoop_no_match d rest (i + 1) (i + 2) hok2 hnm, if_neg (by omega)]
    | succ q =>
      have hq : q < rest.length := Nat.lt_of_succ_lt_succ hp
      have hmatch2 : AttendanceSheetHelper.convert_to_date (rest.getD q "") = .ok d := by
        rwa [List.getD_cons_succ] at hmatch
      have hlater2 : ∀ j, j < rest.length → q < j →
          AttendanceSheetHelper.convert_to_date (rest.getD j "") ≠ .ok d := by
        intro j hj hqj
        have := hlater (j + 1) (Nat.succ_lt_succ hj) (Nat.succ_lt_succ hqj)
        rwa [List.getD_cons_succ] at this
      cases hv : AttendanceSheetHelper.convert_to_date v with
      | error e =>
        have hok0 := hok v (List.mem_cons_self v rest)
        rw [hv] at hok0
        exact absurd hok0 (by simp [isOkE])
      | ok dv =>
        rw [AttendanceFormReportSheetParser.classDateLoop, hv]
        show (if dv = d then AttendanceFormReportSheetParser.classDateLoop d rest (i + 1) (i + 2)
            else AttendanceFormReportSheetParser.classDateLoop d rest (i + 1) last) =
          .ok (i + (q + 1) + 2)
        by_cases hdd : dv = d
        · rw [if_pos hdd,
            classDateLoop_last_match d rest (i + 1) (i + 2) q hok2 hq hmatch2 hlater2]
          congr 1
          omega
        · rw [if_neg hdd,
            classDateLoop_last_match d rest (i + 1) last q hok2 hq hmatch2 hlater2]
          congr 1
          omega

theorem get_class_date_index_no_match (w : Worksheet) (d : Date)
    (hok : ∀ v ∈ AttendanceFormReportSheetParser.dateCells w,
      isOkE (AttendanceSheetHelper.convert_to_date v) = true)
    (hne : ∀ j, j < (AttendanceFormReportSheetParser.dateCells w).length →
      AttendanceSheetHelper.convert_to_date
        ((AttendanceFormReportSheetParser.dateCells w).getD j "") ≠ .ok d) :
    AttendanceFormReportSheetParser.get_class_date_index w d = .error .noRelevantRow := by
  unfold AttendanceFormReportSheetParser.get_class_date_index
  rw [classDateLoop_no_match d (AttendanceFormReportSheetParser.dateCells w) 0 0 hok hne]
  rfl

theorem formGet_of_idx_error (w : Worksheet) (d : Date) (e : PyError)
    (h : AttendanceFormReportSheetParser.get_class_date_index w d = .error e) :
    AttendanceFormReportSheetParser.get_attendance_records_by_date w d = .error e := by
  unfold AttendanceFormReportSheetParser.get_attendance_records_by_date
  rw [h]

theorem formGet_of_idx_ok (w : Worksheet) (d : Date) (i : Nat)
    (h : AttendanceFormReportSheetParser.get_class_date_index w d = .ok i) :
    AttendanceFormReportSheetParser.get_attendance_records_by_date w d =
      AttendanceFormReportSheetParser.buildFormRecords w d i := by
  unfold AttendanceFormReportSheetParser.get_attendance_records_by_date
  rw [h]

theorem zip_map_fst {α β : Type} : ∀ (l₁ : List α) (l₂ : List β),
    (l₁.zip l₂).map Prod.fst = l₁.take l₂.length
  | [], _ => by simp
  | _ :: _, [] => by simp
  | a :: l₁, b :: l₂ => by
    rw [List.zip_cons_cons, List.map_cons, List.length_cons, List.take_succ_cons,
      zip_map_fst l₁ l₂]

/-- C5 counterexample: a column-2 cell that parses under neither date format
makes the extraction fail with the date-format error (`ValueError` from
`convert_to_date`, called without try/except on line 122), not with
`NoRelevantRowError`, even though no cell parses to the target date. -/
theorem c5_parse_error_cex :
    AttendanceFormReportSheetParser.get_attendance_records_by_date gBadDate ⟨2024, 3, 15⟩ =
      .error .valueError ∧
    (Except.error PyError.valueError : Except PyError (List AttendanceRecord)) ≠
      .error .noRelevantRow :=
  ⟨rfl, by decide⟩

/-- C5 amended: provided every scanned column-2 cell parses as a date, the
form-log extraction fails with `NoRelevantRowError` exactly when no cell
parses to the target date, and when cells match, the winning class-date
index is the highest matching row index `p + 2` and the records come from
that row alone; in particular on `grid55` (matching rows 2 and 5) row 5's
values are used.  Without that proviso an unparseable cell raises the
date-format error instead (`c5_parse_error_cex`). -/
theorem c5_last_match_amended :
    (∀ (w : Worksheet) (d : Date),
      (∀ v ∈ AttendanceFormReportSheetParser.dateCells w,
        isOkE (AttendanceSheetHelper.convert_to_date v) = true) →
      ((∀ j, j < (AttendanceFormReportSheetParser.dateCells w).length →
          AttendanceSheetHelper.convert_to_date
            ((AttendanceFormReportSheetParser.dateCells w).getD j "") ≠ .ok d) →
        AttendanceFormReportSheetParser.get_attendance_records_by_date w d =
          .error .noRelevantRow) ∧
      (∀ p, p < (AttendanceFormReportSheetParser.dateCells w).length →
        AttendanceSheetHelper.convert_to_date
          ((AttendanceFormReportSheetParser.dateCells w).getD p "") = .ok d →
        (∀ j, j < (AttendanceFormReportSheetParser.dateCells w).length → p < j →
          AttendanceSheetHelper.convert_to_date
            ((AttendanceFormReportSheetParser.dateCells w).getD j "") ≠ .ok d) →
        AttendanceFormReportSheetParser.get_class_date_index w d = .ok (p + 2) ∧
        AttendanceFormReportSheetParser.get_attendance_records_by_date w d =
          AttendanceFormReportSheetParser.buildFormRecords w d (p + 2))) ∧
    AttendanceFormReportSheetParser.get_class_date_index grid55 ⟨2024, 3, 15⟩ = .ok 5 ∧
    AttendanceFormReportSheetParser.get_attendance_records_by_date grid55 ⟨2024, 3, 15⟩ =
      .ok [⟨"王小明", .leave, "5", ⟨2024, 3, 15⟩⟩] := by
  refine ⟨?_, rfl, rfl⟩
  intro w d hok
  constructor
  · intro hne
    exact formGet_of_idx_error w d _ (get_class_date_index_no_match w d hok hne)
  · intro p hp hm hl
    have hidx : AttendanceFormReportSheetParser.get_class_date_index w d = .ok (p + 2) := by
      unfold AttendanceFormReportSheetParser.get_class_date_index
      rw [classDateLoop_last_match d (AttendanceFormReportSheetParser.dateCells w)
        0 0 p hok hp hm hl]
      congr 1
      omega
    exact ⟨hidx, formGet_of_idx_ok w d (p + 2) hidx⟩

theorem c5_last_match_witness :
    AttendanceFormReportSheetParser.get_class_date_index grid55 ⟨2024, 3, 15⟩ = .ok (3 + 2) :=
  ((c5_last_match_amended.1 grid55 ⟨2024, 3, 15⟩ (by decide)).2 3 (by decide) (by decide)
    (by decide)).1

/-- C8 counterexample: a form-log grid repeating the same member column
emits two records with the same normalized name in one scan pass. -/
theorem c8_duplicate_cex :
    AttendanceFormReportSheetParser.get_attendance_records_by_date gDup ⟨2024, 3, 15⟩ =
      .ok [⟨"王小明", .inPerson, "3", ⟨2024, 3, 15⟩⟩,
           ⟨"王小明", .online, "3", ⟨2024, 3, 15⟩⟩] ∧
    ¬ (([⟨"王小明", AttendanceState.inPerson, "3", ⟨2024, 3, 15⟩⟩,
         ⟨"王小明", AttendanceState.online, "3", ⟨2024, 3, 15⟩⟩] :
         List AttendanceRecord).map (fun r => r.name)).Nodup :=
  ⟨rfl, by decide⟩

/-- C8 amended: the roster-matrix parser never returns successfully (the
no-duplicates property holds for it vacuously), and a successful form-log
extraction has pairwise-distinct record names provided the normalized names
of the `出席記錄 [`-prefixed header cells are pairwise distinct; a grid
carrying the same member column twice can emit duplicates
(`c8_duplicate_cex`). -/
theorem c8_nodup_amended :
    (∀ (w : Worksheet) (d : Date),
      AttendanceSheetParser.get_attendance_records_by_date w d = .error .noRelevantRow) ∧
    (∀ (w : Worksheet) (d : Date) (recs : List AttendanceRecord),
      AttendanceFormReportSheetParser.get_attendance_records_by_date w d = .ok recs →
      (((w.getRowCells 1).filter (fun t => pyStartsWith t "出席記錄 [")).map
        AttendanceSheetHelper.convert_to_name).Nodup →
      (recs.map (fun r => r.name)).Nodup) := by
  refine ⟨roster_get_always_error, ?_⟩
  intro w d recs h hnd
  cases hidx : AttendanceFormReportSheetParser.get_class_date_index w d with
  | error e =>
    rw [formGet_of_idx_error w d e hidx] at h
    exact Except.noConfusion h
  | ok i =>
    rw [formGet_of_idx_ok w d i hidx] at h
    unfold AttendanceFormReportSheetParser.buildFormRecords at h
    obtain ⟨-, hnames, -⟩ := formLoop_ok_spec d _ _ recs h
    rw [hnames, zip_map_fst]
    exact List.Nodup.sublist
      (List.Sublist.map _ (List.Sublist.filter _ (List.take_sublist _ _))) hnd

theorem c8_nodup_witness :
    (([⟨"王小明", AttendanceState.leave, "5", ⟨2024, 3, 15⟩⟩] :
      List AttendanceRecord).map (fun r => r.name)).Nodup :=
  c8_nodup_amended.2 grid55 ⟨2024, 3, 15⟩
    [⟨"王小明", AttendanceState.leave, "5", ⟨2024, 3, 15⟩⟩] rfl (by decide)

/-- C9: whenever either parser's `get_attendance_records_by_date` returns
successfully, every returned record carries the requested date (for the
roster-matrix parser this holds vacuously, as it always raises; for the
form-log parser every record is constructed with `date=date`). -/
theorem c9_records_share_date :
    (∀ (w : Worksheet) (d : Date) (recs : List AttendanceRecord),
      AttendanceSheetParser.get_attendance_records_by_date w d = .ok recs →
      ∀ r ∈ recs, r.date = d) ∧
    (∀ (w : Worksheet) (d : Date) (recs : List AttendanceRecord),
      AttendanceFormReportSheetParser.get_attendance_records_by_date w d = .ok recs →
      ∀ r ∈ recs, r.date = d) := by
  constructor
  · intro w d recs h
    rw [roster_get_always_error w d] at h
    exact Except.noConfusion h
  · intro w d recs h r hr
    cases hidx : AttendanceFormReportSheetParser.get_class_date_index w d with
    | error e =>
      rw [formGet_of_idx_error w d e hidx] at h
      exact Except.noConfusion h
    | ok i =>
      rw [formGet_of_idx_ok w d i hidx] at h
      unfold AttendanceFormReportSheetParser.buildFormRecords at h
      exact ((formLoop_ok_spec d _ _ recs h).1 r hr).1

theorem c9_records_share_date_witness :
    (⟨"王小明", AttendanceState.leave, "5", ⟨2024, 3, 15⟩⟩ : AttendanceRecord).date =
      ⟨2024, 3, 15⟩ :=
  c9_records_share_date.2 grid55 ⟨2024, 3, 15⟩
    [⟨"王小明", AttendanceState.leave, "5", ⟨2024, 3, 15⟩⟩] rfl
    ⟨"王小明", AttendanceState.leave, "5", ⟨2024, 3, 15⟩⟩ (List.mem_singleton.mpr rfl)

/-- C10: the form-log record list is bounded by the zip of the trimmed
title row and trimmed winning data row, and a prefixed header column lying
beyond the trimmed data row produces no record at all: on `gShort` the
title row has 5 cells with `出席記錄 [` at column 5, the winning data row
trims to 4 cells, and the result holds a single record (no ABSENT record
for the fifth column's member). -/
theorem c10_zip_truncation :
    (∀ (w : Worksheet) (d : Date) (i : Nat) (recs : List AttendanceRecord),
      AttendanceFormReportSheetParser.get_class_date_index w d = .ok i →
      AttendanceFormReportSheetParser.get_attendance_records_by_date w d = .ok recs →
      recs.length ≤ min (w.getRowCells 1).length (w.getRowCells i).length) ∧
    AttendanceFormReportSheetParser.get_attendance_records_by_date gShort ⟨2024, 3, 15⟩ =
      .ok [⟨"王小明", .inPerson, "1", ⟨2024, 3, 15⟩⟩] ∧
    pyStartsWith (gShort.cellValue 1 5) "出席記錄 [" = true ∧
    (gShort.getRowCells 1).length = 5 ∧
    (gShort.getRowCells 2).length = 4 ∧
    AttendanceFormReportSheetParser.get_class_date_index gShort ⟨2024, 3, 15⟩ = .ok 2 := by
  refine ⟨?_, rfl, rfl, rfl, rfl, rfl⟩
  intro w d i recs hidx h
  rw [formGet_of_idx_ok w d i hidx] at h
  unfold AttendanceFormReportSheetParser.buildFormRecords at h
  have hlen := (formLoop_ok_spec d _ _ recs h).2.2
  rw [List.length_zip] at hlen
  exact hlen

theorem c10_zip_truncation_witness :
    ([(⟨"王小明", AttendanceState.inPerson, "1", ⟨2024, 3, 15⟩⟩ : AttendanceRecord)]).length ≤
      min (gShort.getRowCells 1).length (gShort.getRowCells 2).length :=
  c10_zip_truncation.1 gShort ⟨2024, 3, 15⟩ 2
    [⟨"王小明", AttendanceState.inPerson, "1", ⟨2024, 3, 15⟩⟩] rfl rfl
